import Mathlib

/-!
Shallow embedding of `src/bokeh/models/widgets/buttons.py`: the widget
models `Button`, `Toggle`, `Dropdown` with their declarative properties
and the deprecated `on_click` / `js_on_click` convenience methods.

Python mutation is modelled by explicit state passing: each method takes
the widget state and returns the updated state together with the list of
deprecation notices it emitted during the call.  The framework pieces the
file delegates to (the events module, the deprecation helper, the callback
manager mixins and the property system) are not part of the source slice
and are modelled from the spec, as marked in their doc comments.
-/

namespace BokehButtons

/-- Modelled from the spec: the `deprecated` helper of
`bokeh.util.deprecation` (not in the source slice) emits a single
deprecation notice naming the version, the old call form and its
documented replacement.  One value of this structure is one notice. -/
structure DeprecationNotice where
  since : Nat × Nat × Nat
  old : String
  new : String
deriving DecidableEq, Repr

/-- Modelled from the spec: the event classes `ButtonClick` and
`MenuItemClick` of `bokeh.events` (not in the source slice); each carries
its documented replacement event name. -/
inductive BkEvent where
  | buttonClick
  | menuItemClick
deriving DecidableEq, Repr

/-- Modelled from the spec: the event name each event class registers
under ("button_click", "menu_item_click"). -/
def BkEvent.event_name : BkEvent → String
  | .buttonClick => "button_click"
  | .menuItemClick => "menu_item_click"

/-- Modelled from the spec: `button_type` is an "enumerated style"
(`Enum(ButtonType)` from `bokeh.core.enums`, not in the source slice);
an `Enum` property defaults to its first value. -/
inductive ButtonType where
  | default
  | primary
  | success
  | warning
  | danger
  | light
deriving DecidableEq, Repr

/-- Python values that can be offered to the `menu` property's per-entry
validator, covering every alternative of the declared property type
`Either(Null, String, Tuple(String, Either(String, Instance(Callback))))`
plus values outside it.  `CB` is the opaque type of `Callback` model
instances. -/
inductive PyValue (CB : Type) where
  | pyNone
  | pyStr (s : String)
  | pyBool (b : Bool)
  | pyTuple2 (a b : PyValue CB)
  | pyCallback (c : CB)
deriving DecidableEq, Repr

/-- Validator of the `Null` property type: accepts exactly `None`. -/
def nullAccepts {CB : Type} : PyValue CB → Bool
  | .pyNone => true
  | _ => false

/-- Validator of the `String` property type: accepts exactly strings. -/
def stringAccepts {CB : Type} : PyValue CB → Bool
  | .pyStr _ => true
  | _ => false

/-- Validator of `Either(String, Instance(Callback))`, the value slot of
a menu tuple entry. -/
def menuValueAccepts {CB : Type} : PyValue CB → Bool
  | .pyStr _ => true
  | .pyCallback _ => true
  | _ => false

/-- Per-entry validator of the `menu` property, translated from the
declared type
`Either(Null, String, Tuple(String, Either(String, Instance(Callback))))`
in `Dropdown.menu`. -/
def menuEntryAccepts {CB : Type} (v : PyValue CB) : Bool :=
  nullAccepts v || stringAccepts v ||
    (match v with
     | .pyTuple2 a b => stringAccepts a && menuValueAccepts b
     | _ => false)

/-- Modelled from the spec: the `Bool` property descriptor of the external
property system accepts only boolean values. -/
def boolAccepts {CB : Type} : PyValue CB → Bool
  | .pyBool _ => true
  | _ => false

/-- A record of one invocation of a Toggle click handler: the handler `h`
was called with the single boolean argument `arg`. -/
inductive ToggleCall (H : Type) where
  | call (h : H) (arg : Bool)
deriving DecidableEq, Repr

/-- State of a `Button` widget: the declarative properties declared in
`ButtonLike` / `AbstractButton` / `Button`, plus the event-callback
registries of the external callback manager (modelled from the spec as
ordered lists of (event name, handler) registrations).  `Icon` is the
opaque type of `AbstractIcon` instances, `EH` of Python event handlers,
`JH` of JavaScript `Callback` models. -/
structure Button (Icon EH JH : Type) where
  button_type : ButtonType
  label : String
  icon : Option Icon
  event_callbacks : List (String × EH)
  js_event_callbacks : List (String × JH)
deriving Repr

/-- Modelled from the spec: construction with no arguments takes each
declared property's default; `Button` overrides `label` to `"Button"`,
`icon` is nullable defaulting to `None`, and the callback registries
start empty. -/
def Button.mkDefault {Icon EH JH : Type} : Button Icon EH JH :=
  { button_type := .default
    label := "Button"
    icon := none
    event_callbacks := []
    js_event_callbacks := [] }

/-- Notice emitted by `Button.on_click` and `Toggle.on_click`. -/
def onClickNotice : DeprecationNotice :=
  ⟨(3, 0, 0), "on_click(handler)", "on_event(\"button_click\", handler)"⟩

/-- Notice emitted by `Button.js_on_click` and `Toggle.js_on_click`. -/
def jsOnClickNotice : DeprecationNotice :=
  ⟨(3, 0, 0), "js_on_click(handler)", "js_on_event(\"button_click\", handler)"⟩

/-- Translation of `Button.on_click`: emit the deprecation notice, then
`self.on_event(ButtonClick, handler)`.  The Python method returns `None`;
here the updated state and the emitted notices are the whole effect. -/
def Button.on_click {Icon EH JH : Type} (b : Button Icon EH JH)
    (handler : EH) : Button Icon EH JH × List DeprecationNotice :=
  ({ b with event_callbacks :=
      b.event_callbacks ++ [(BkEvent.buttonClick.event_name, handler)] },
   [onClickNotice])

/-- Translation of `Button.js_on_click`: emit the deprecation notice, then
`self.js_on_event(ButtonClick, handler)`. -/
def Button.js_on_click {Icon EH JH : Type} (b : Button Icon EH JH)
    (handler : JH) : Button Icon EH JH × List DeprecationNotice :=
  ({ b with js_event_callbacks :=
      b.js_event_callbacks ++ [(BkEvent.buttonClick.event_name, handler)] },
   [jsOnClickNotice])

/-- State of a `Toggle` widget: the inherited declarative properties plus
`active = Bool(False)`, the event registries, and the property-change
registries of the external callback manager (modelled from the spec).
A change callback registered for `active` receives the attribute name and
the old and new boolean values and performs some handler invocations,
recorded as a list of `ToggleCall H`. -/
structure Toggle (Icon EH JH H JCB : Type) where
  button_type : ButtonType
  label : String
  icon : Option Icon
  active : Bool
  event_callbacks : List (String × EH)
  js_event_callbacks : List (String × JH)
  change_callbacks : List (String × (String → Bool → Bool → List (ToggleCall H)))
  js_change_callbacks : List (String × JCB)

/-- Modelled from the spec: default construction of a `Toggle`; `label`
is overridden to `"Toggle"` and `active = Bool(False)` defaults to
`False`. -/
def Toggle.mkDefault {Icon EH JH H JCB : Type} : Toggle Icon EH JH H JCB :=
  { button_type := .default
    label := "Toggle"
    icon := none
    active := false
    event_callbacks := []
    js_event_callbacks := []
    change_callbacks := []
    js_change_callbacks := [] }

/-- The wrapping lambda of `Toggle.on_click`:
`lambda attr, old, new: handler(new)` — it discards the attribute name and
the old value and calls the handler once with the new value. -/
def toggleClickWrapper {H : Type} (handler : H) :
    String → Bool → Bool → List (ToggleCall H) :=
  fun _attr _old new => [ToggleCall.call handler new]

/-- Translation of `Toggle.on_click`: emit the deprecation notice, then
`self.on_change('active', lambda attr, old, new: handler(new))`.  Note the
source registers with the property-change facility `on_change`, not with
`on_event`. -/
def Toggle.on_click {Icon EH JH H JCB : Type} (t : Toggle Icon EH JH H JCB)
    (handler : H) : Toggle Icon EH JH H JCB × List DeprecationNotice :=
  ({ t with change_callbacks :=
      t.change_callbacks ++ [("active", toggleClickWrapper handler)] },
   [onClickNotice])

/-- Translation of `Toggle.js_on_click`: emit the deprecation notice, then
`self.js_on_change('active', handler)`.  The source registers with
`js_on_change`, not `js_on_event`. -/
def Toggle.js_on_click {Icon EH JH H JCB : Type} (t : Toggle Icon EH JH H JCB)
    (handler : JCB) : Toggle Icon EH JH H JCB × List DeprecationNotice :=
  ({ t with js_change_callbacks :=
      t.js_change_callbacks ++ [("active", handler)] },
   [jsOnClickNotice])

/-- Modelled from the spec: attribute mutation of `active` through the
external property system; the `Bool` descriptor accepts only boolean
values and stores the accepted value. -/
def Toggle.set_active {Icon EH JH H JCB CB : Type}
    (t : Toggle Icon EH JH H JCB) (v : PyValue CB) :
    Option (Toggle Icon EH JH H JCB) :=
  match v with
  | .pyBool b => some { t with active := b }
  | _ => none

/-- Modelled from the spec: the change-notification system of the external
callback manager; on a change of attribute `attr` from `old` to `new` it
invokes, in registration order, every change callback registered under
`attr`, passing it the attribute name and the old and new values. -/
def Toggle.trigger {Icon EH JH H JCB : Type} (t : Toggle Icon EH JH H JCB)
    (attr : String) (old new : Bool) : List (ToggleCall H) :=
  (t.change_callbacks.filter fun p => p.1 == attr).flatMap
    fun p => p.2 attr old new

/-- State of a `Dropdown` widget: the inherited declarative properties plus
`split = Bool(default=False)` and the `menu` list, and the event registries
of the external callback manager.  Menu entries are stored as the Python
values accepted by the property's per-entry validator. -/
structure Dropdown (Icon EH JH CB : Type) where
  button_type : ButtonType
  label : String
  icon : Option Icon
  split : Bool
  menu : List (PyValue CB)
  event_callbacks : List (String × EH)
  js_event_callbacks : List (String × JH)
deriving Repr

/-- Modelled from the spec: default construction of a `Dropdown`; `label`
is overridden to `"Dropdown"`, `split` defaults to `False`, and a `List`
property defaults to the empty list. -/
def Dropdown.mkDefault {Icon EH JH CB : Type} : Dropdown Icon EH JH CB :=
  { button_type := .default
    label := "Dropdown"
    icon := none
    split := false
    menu := []
    event_callbacks := []
    js_event_callbacks := [] }

/-- Notice emitted by `Dropdown.on_click`. -/
def dropdownOnClickNotice : DeprecationNotice :=
  ⟨(3, 0, 0), "on_click(handler)",
   "on_event(\"button_click\", handler) OR on_event(\"menu_item_click\", handler)"⟩

/-- Notice emitted by `Dropdown.js_on_click`. -/
def dropdownJsOnClickNotice : DeprecationNotice :=
  ⟨(3, 0, 0), "js_on_click(handler)",
   "js_on_event(\"button_click\", handler) OR js_on_event(\"menu_item_click\", handler)"⟩

/-- Translation of `Dropdown.on_click`: emit the deprecation notice, then
`self.on_event(ButtonClick, handler)` followed by
`self.on_event(MenuItemClick, handler)`. -/
def Dropdown.on_click {Icon EH JH CB : Type} (d : Dropdown Icon EH JH CB)
    (handler : EH) : Dropdown Icon EH JH CB × List DeprecationNotice :=
  ({ d with event_callbacks :=
      d.event_callbacks ++ [(BkEvent.buttonClick.event_name, handler),
                            (BkEvent.menuItemClick.event_name, handler)] },
   [dropdownOnClickNotice])

/-- Translation of `Dropdown.js_on_click`: emit the deprecation notice,
then `self.js_on_event(ButtonClick, handler)` followed by
`self.js_on_event(MenuItemClick, handler)`. -/
def Dropdown.js_on_click {Icon EH JH CB : Type} (d : Dropdown Icon EH JH CB)
    (handler : JH) : Dropdown Icon EH JH CB × List DeprecationNotice :=
  ({ d with js_event_callbacks :=
      d.js_event_callbacks ++ [(BkEvent.buttonClick.event_name, handler),
                               (BkEvent.menuItemClick.event_name, handler)] },
   [dropdownJsOnClickNotice])

/-- A concrete default `Toggle` with every opaque type instantiated at
`Unit`, used in closed statements. -/
def t0 : Toggle Unit Unit Unit Unit Unit := Toggle.mkDefault

/-- C1: for every widget among Button, Toggle, and Dropdown, a single
invocation of a deprecated method (`on_click` or `js_on_click`) emits
exactly one deprecation notice. -/
theorem one_deprecation_notice_per_call :
    ∀ (Icon EH JH H JCB CB : Type)
      (b : Button Icon EH JH) (t : Toggle Icon EH JH H JCB)
      (d : Dropdown Icon EH JH CB) (he : EH) (hj : JH) (ht : H) (hc : JCB),
      (b.on_click he).2.length = 1 ∧ (b.js_on_click hj).2.length = 1 ∧
      (t.on_click ht).2.length = 1 ∧ (t.js_on_click hc).2.length = 1 ∧
      (d.on_click he).2.length = 1 ∧ (d.js_on_click hj).2.length = 1 := by
  intros
  exact ⟨rfl, rfl, rfl, rfl, rfl, rfl⟩

/-- C2 counterexample: calling the deprecated `Toggle.on_click`
(respectively `js_on_click`) on a default Toggle does NOT register the
handler with `on_event` (respectively `js_on_event`) under
`"button_click"`: the event registries stay empty, and the registration
goes to the property-change registries under attribute `"active"`
instead. -/
theorem toggle_on_click_not_via_on_event :
    (Toggle.on_click t0 ()).1.event_callbacks = [] ∧
    (Toggle.js_on_click t0 ()).1.js_event_callbacks = [] ∧
    (Toggle.on_click t0 ()).1.change_callbacks.map Prod.fst = ["active"] ∧
    (Toggle.js_on_click t0 ()).1.js_change_callbacks = [("active", ())] :=
  ⟨rfl, rfl, rfl, rfl⟩

/-- C2 amended: for every Toggle instance and every handler, the
deprecated `on_click` forwards the handler, wrapped in a lambda, to the
property-change facility `on_change` under the attribute name
`"active"`, and `js_on_click` forwards the handler to `js_on_change`
under `"active"`; the deprecation notice names
`on_event("button_click", handler)` (respectively the js form) as the
documented replacement. -/
theorem toggle_on_click_forwards_to_on_change :
    ∀ (Icon EH JH H JCB : Type) (t : Toggle Icon EH JH H JCB)
      (h : H) (j : JCB),
      (t.on_click h).1 = { t with change_callbacks :=
        t.change_callbacks ++ [("active", toggleClickWrapper h)] } ∧
      (t.js_on_click j).1 = { t with js_change_callbacks :=
        t.js_change_callbacks ++ [("active", j)] } ∧
      (t.on_click h).2 = [onClickNotice] ∧
      (t.js_on_click j).2 = [jsOnClickNotice] ∧
      onClickNotice.new = "on_event(\"button_click\", handler)" ∧
      jsOnClickNotice.new = "js_on_event(\"button_click\", handler)" := by
  intros
  exact ⟨rfl, rfl, rfl, rfl, rfl, rfl⟩

/-- C3: for every Button instance and every handler, `on_click` registers
the handler with the event callback manager for the ButtonClick
(`"button_click"`) event via `on_event`, and `js_on_click` registers it
for the same event via `js_on_event`. -/
theorem button_on_click_registers_button_click :
    ∀ (Icon EH JH : Type) (b : Button Icon EH JH) (h : EH) (j : JH),
      (b.on_click h).1 = { b with event_callbacks :=
        b.event_callbacks ++ [("button_click", h)] } ∧
      (b.js_on_click j).1 = { b with js_event_callbacks :=
        b.js_event_callbacks ++ [("button_click", j)] } := by
  intros
  exact ⟨rfl, rfl⟩

/-- C4: for every Dropdown instance and every handler, one call to
`on_click` registers the handler for both the ButtonClick
(`"button_click"`) event and the MenuItemClick (`"menu_item_click"`)
event, in that order, and `js_on_click` does the same via
`js_on_event`. -/
theorem dropdown_on_click_registers_both_events :
    ∀ (Icon EH JH CB : Type) (d : Dropdown Icon EH JH CB) (h : EH) (j : JH),
      (d.on_click h).1 = { d with event_callbacks :=
        d.event_callbacks ++ [("button_click", h), ("menu_item_click", h)] } ∧
      (d.js_on_click j).1 = { d with js_event_callbacks :=
        d.js_event_callbacks ++ [("button_click", j), ("menu_item_click", j)] } := by
  intros
  exact ⟨rfl, rfl⟩

/-- C5 counterexample: the plain string `"Item"` is accepted by the
`menu` property's per-entry validator, yet it is neither a separator
(`None`) nor a (text, value) tuple. -/
theorem menu_accepts_plain_string :
    menuEntryAccepts (PyValue.pyStr "Item" : PyValue Unit) = true ∧
    (PyValue.pyStr "Item" : PyValue Unit) ≠ .pyNone ∧
    ∀ a b : PyValue Unit, (PyValue.pyStr "Item" : PyValue Unit) ≠ .pyTuple2 a b :=
  ⟨rfl, fun h => PyValue.noConfusion h,
   fun _ _ h => PyValue.noConfusion h⟩

/-- C5 amended: an entry is accepted into the `menu` property exactly
when it is a separator (`None`), a plain string, or a (text, value) pair
whose text is a string and whose value is a string or a Callback
instance; the menu is an ordered list of such entries. -/
theorem menu_entry_characterization :
    ∀ (CB : Type) (v : PyValue CB),
      menuEntryAccepts v = true ↔
        (v = .pyNone ∨ (∃ s, v = .pyStr s) ∨
         ∃ s w, v = .pyTuple2 (.pyStr s) w ∧
           ((∃ u, w = .pyStr u) ∨ ∃ c, w = .pyCallback c)) := by
  intro CB v
  cases v with
  | pyNone =>
      simp [menuEntryAccepts, nullAccepts, stringAccepts]
  | pyStr s =>
      simp [menuEntryAccepts, nullAccepts, stringAccepts]
  | pyBool b =>
      simp [menuEntryAccepts, nullAccepts, stringAccepts]
  | pyTuple2 a b =>
      cases a <;> cases b <;>
        simp [menuEntryAccepts, nullAccepts, stringAccepts, menuValueAccepts]
      case pyStr.pyStr s u =>
        exact ⟨s, .pyStr u, ⟨rfl, rfl⟩, Or.inl ⟨u, rfl⟩⟩
      case pyStr.pyCallback s c =>
        exact ⟨s, .pyCallback c, ⟨rfl, rfl⟩, Or.inr ⟨c, rfl⟩⟩
  | pyCallback c =>
      simp [menuEntryAccepts, nullAccepts, stringAccepts]

/-- C6: invoking `on_click` or `js_on_click` performs no error handling
beyond emitting the deprecation warning: each method is a total function
(every call completes normally — the Python methods return `None`, so the
whole effect is the updated state), and the only warning-channel output
is the single deprecation notice of that method. -/
theorem on_click_total_single_warning :
    ∀ (Icon EH JH H JCB CB : Type)
      (b : Button Icon EH JH) (t : Toggle Icon EH JH H JCB)
      (d : Dropdown Icon EH JH CB) (he : EH) (hj : JH) (ht : H) (hc : JCB),
      (b.on_click he).2 = [onClickNotice] ∧
      (b.js_on_click hj).2 = [jsOnClickNotice] ∧
      (t.on_click ht).2 = [onClickNotice] ∧
      (t.js_on_click hc).2 = [jsOnClickNotice] ∧
      (d.on_click he).2 = [dropdownOnClickNotice] ∧
      (d.js_on_click hj).2 = [dropdownJsOnClickNotice] := by
  intros
  exact ⟨rfl, rfl, rfl, rfl, rfl, rfl⟩

/-- C7: the `active` field of a Toggle is boolean: it is `False` on
construction, and attribute mutation through the property system accepts
only boolean values, storing the accepted boolean. -/
theorem toggle_active_boolean_invariant :
    (∀ (Icon EH JH H JCB : Type),
      (Toggle.mkDefault : Toggle Icon EH JH H JCB).active = false) ∧
    ∀ (Icon EH JH H JCB CB : Type) (t t' : Toggle Icon EH JH H JCB)
      (v : PyValue CB), Toggle.set_active t v = some t' →
      ∃ b, v = .pyBool b ∧ t'.active = b := by
  constructor
  · intros
    rfl
  · intro Icon EH JH H JCB CB t t' v h
    cases v with
    | pyBool b =>
        refine ⟨b, rfl, ?_⟩
        simp only [Toggle.set_active, Option.some.injEq] at h
        subst h
        rfl
    | pyNone => simp [Toggle.set_active] at h
    | pyStr s => simp [Toggle.set_active] at h
    | pyTuple2 a b => simp [Toggle.set_active] at h
    | pyCallback c => simp [Toggle.set_active] at h

/-- Witness for C7: the theorem applied at a concrete mutation, setting
`active` of a default Toggle to `True`. -/
theorem toggle_active_boolean_invariant_wit :
    ∃ b, (PyValue.pyBool true : PyValue Unit) = .pyBool b ∧
      ({ t0 with active := true } : Toggle Unit Unit Unit Unit Unit).active = b :=
  toggle_active_boolean_invariant.2 Unit Unit Unit Unit Unit Unit
    t0 { t0 with active := true } (.pyBool true) rfl

/-- C8: calling `on_click` or `js_on_click` on any of the three widgets
leaves every declarative property (label, icon, button_type, and, where
present, active, split, menu) unchanged; only the callback registries are
modified. -/
theorem on_click_preserves_declarative_props :
    ∀ (Icon EH JH H JCB CB : Type)
      (b : Button Icon EH JH) (t : Toggle Icon EH JH H JCB)
      (d : Dropdown Icon EH JH CB) (he : EH) (hj : JH) (ht : H) (hc : JCB),
      ((b.on_click he).1.label = b.label ∧
       (b.on_click he).1.icon = b.icon ∧
       (b.on_click he).1.button_type = b.button_type) ∧
      ((b.js_on_click hj).1.label = b.label ∧
       (b.js_on_click hj).1.icon = b.icon ∧
       (b.js_on_click hj).1.button_type = b.button_type) ∧
      ((t.on_click ht).1.label = t.label ∧
       (t.on_click ht).1.icon = t.icon ∧
       (t.on_click ht).1.button_type = t.button_type ∧
       (t.on_click ht).1.active = t.active) ∧
      ((t.js_on_click hc).1.label = t.label ∧
       (t.js_on_click hc).1.icon = t.icon ∧
       (t.js_on_click hc).1.button_type = t.button_type ∧
       (t.js_on_click hc).1.active = t.active) ∧
      ((d.on_click he).1.label = d.label ∧
       (d.on_click he).1.icon = d.icon ∧
       (d.on_click he).1.button_type = d.button_type ∧
       (d.on_click he).1.split = d.split ∧
       (d.on_click he).1.menu = d.menu) ∧
      ((d.js_on_click hj).1.label = d.label ∧
       (d.js_on_click hj).1.icon = d.icon ∧
       (d.js_on_click hj).1.button_type = d.button_type ∧
       (d.js_on_click hj).1.split = d.split ∧
       (d.js_on_click hj).1.menu = d.menu) := by
  intros
  exact ⟨⟨rfl, rfl, rfl⟩, ⟨rfl, rfl, rfl⟩, ⟨rfl, rfl, rfl, rfl⟩,
    ⟨rfl, rfl, rfl, rfl⟩, ⟨rfl, rfl, rfl, rfl, rfl⟩,
    ⟨rfl, rfl, rfl, rfl, rfl⟩⟩

/-- C9: default construction gives a Button label `"Button"`, a Toggle
label `"Toggle"` with `active = False`, a Dropdown label `"Dropdown"`
with `split = False` and an empty menu, and a `None` icon for all
three. -/
theorem default_construction_values :
    ∀ (Icon EH JH H JCB CB : Type),
      (Button.mkDefault : Button Icon EH JH).label = "Button" ∧
      (Button.mkDefault : Button Icon EH JH).icon = none ∧
      (Toggle.mkDefault : Toggle Icon EH JH H JCB).label = "Toggle" ∧
      (Toggle.mkDefault : Toggle Icon EH JH H JCB).active = false ∧
      (Toggle.mkDefault : Toggle Icon EH JH H JCB).icon = none ∧
      (Dropdown.mkDefault : Dropdown Icon EH JH CB).label = "Dropdown" ∧
      (Dropdown.mkDefault : Dropdown Icon EH JH CB).split = false ∧
      (Dropdown.mkDefault : Dropdown Icon EH JH CB).menu = [] ∧
      (Dropdown.mkDefault : Dropdown Icon EH JH CB).icon = none := by
  intros
  exact ⟨rfl, rfl, rfl, rfl, rfl, rfl, rfl, rfl, rfl⟩

/-- C10: a handler registered through `Toggle.on_click` is invoked, on a
change of `active`, with exactly one argument — the new value; the
attribute name and the old value are discarded by the wrapping lambda.
On top of the callbacks already present, a change of `active` from `old`
to `new` triggers exactly one additional handler call, with `new`. -/
theorem toggle_handler_called_with_new_value :
    ∀ (Icon EH JH H JCB : Type) (t : Toggle Icon EH JH H JCB) (h : H)
      (attr : String) (old new : Bool),
      toggleClickWrapper h attr old new = [ToggleCall.call h new] ∧
      Toggle.trigger (t.on_click h).1 "active" old new =
        Toggle.trigger t "active" old new ++ [ToggleCall.call h new] := by
  intro Icon EH JH H JCB t h attr old new
  refine ⟨rfl, ?_⟩
  simp [Toggle.trigger, Toggle.on_click, toggleClickWrapper,
    List.filter_append]

end BokehButtons
